import Mathlib

/-
Verification of the who-is-fake game server's room and round state machine.
The definitions below are a shallow embedding of the server's socket handlers
(createRoom, joinRoom, startGame, submitAnswer, skipGuessTimer, nextQuestion,
disconnect).  Randomness (Math.floor(Math.random() * n)) is modelled by a Nat
parameter reduced modulo n; the question corpus (questionsData / allQuestionKeys)
is passed explicitly; outbound socket emissions are returned as a list.
-/

set_option linter.unusedVariables false
set_option linter.unnecessarySeqFocus false

namespace WhoIsFake

/-- A player record as stored in room.players. -/
structure Player where
  id : String
  name : String
  isCreator : Bool
  hasAnswered : Bool
  deriving DecidableEq, Repr

/-- Room settings (turnTimer, guessTimer, totalQuestions). -/
structure Settings where
  turnTimer : Nat
  guessTimer : Nat
  totalQuestions : Nat
  deriving DecidableEq, Repr

/-- A question pair: the real prompt and the imposter's fake prompt. -/
structure Question where
  real : String
  fake : String
  deriving DecidableEq, Repr

/-- The gameState.status strings of the server. -/
inductive Status where
  | lobby
  | playing
  | guessing
  | revealing
  | gameover
  deriving DecidableEq, Repr

/-- room.gameState. -/
structure GameState where
  status : Status
  roundNumber : Nat
  usedQuestionKeys : List String
  answers : List (String × String)
  imposterId : Option String
  currentQuestion : Option Question
  deriving DecidableEq, Repr

/-- A room in the in-memory registry. -/
structure Room where
  roomCode : String
  settings : Settings
  players : List Player
  gameState : GameState
  deriving DecidableEq, Repr

/-- Outbound socket messages (payload fields restricted to what the claims need). -/
inductive Msg where
  | roomCreated
  | joinSuccess
  | joinError (message : String)
  | updateRoomState
  | lobbyError (message : String)
  | gameStarted
  | newRound (roundNumber : Nat) (question : String) (isImposter : Bool)
  | allAnswersIn (answers : List (String × String)) (realQuestion : String)
  | reveal (imposterId : String) (imposterName : String) (fakeQuestion : String)
  | gameOver (summary : String)
  | gameError (message : String)
  deriving DecidableEq, Repr

/-- An emission together with its target: unicast to the requesting socket,
broadcast to the room, or unicast to a specific player id. -/
inductive Emit where
  | toRequester (m : Msg)
  | toRoom (m : Msg)
  | toPlayer (pid : String) (m : Msg)
  deriving DecidableEq, Repr

/-- The character class stripped by JavaScript String.prototype.trim. -/
def jsWhitespace (c : Char) : Bool :=
  c = ' ' || c = '\t' || c = '\n' || c = '\r' || c = '\x0B' || c = '\x0C' ||
  c = '\u00A0' || c = '\uFEFF'

/-- Strip leading and trailing JS whitespace from a character list. -/
def jsTrimList (l : List Char) : List Char :=
  ((l.dropWhile jsWhitespace).reverse.dropWhile jsWhitespace).reverse

/-- JavaScript s.trim(). -/
def jsTrim (s : String) : String := ⟨jsTrimList s.data⟩

/-- JavaScript s.substring(0, len). -/
def jsSubstring0 (s : String) (len : Nat) : String := ⟨s.data.take len⟩

/-- The server's answer sanitization: (answerText or '').trim().substring(0, 150). -/
def sanitize (answerText : Option String) : String :=
  jsSubstring0 (jsTrim (answerText.getD "")) 150

/-- JS object property assignment answers[k] = v: overwrite in place if the key
exists, else append (JS objects preserve insertion order of string keys). -/
def insertA : List (String × String) → String → String → List (String × String)
  | [], k, v => [(k, v)]
  | (k', v') :: t, k, v =>
    if k' = k then (k, v) :: t else (k', v') :: insertA t k v

/-- JS truthiness of answers[playerId]: an absent key or the empty string is falsy. -/
def truthy : Option String → Bool
  | none => false
  | some s => s != ""

/-- Mutate the player found by players.find(p => p.id === pid): set hasAnswered. -/
def setAnswered : List Player → String → List Player
  | [], _ => []
  | p :: t, pid =>
    if p.id = pid then { p with hasAnswered := true } :: t
    else p :: setAnswered t pid

/-- room.players.forEach(p => p.hasAnswered = false). -/
def resetAnswered (ps : List Player) : List Player :=
  ps.map (fun p => { p with hasAnswered := false })

/-- findIndex + splice(idx, 1): remove the first player with the given id,
returning the removed record and the remaining list. -/
def removeFirst : List Player → String → Option (Player × List Player)
  | [], _ => none
  | p :: t, sid =>
    if p.id = sid then some (p, t)
    else
      match removeFirst t sid with
      | some pr => some (pr.1, p :: pr.2)
      | none => none

/-- room.players[0].isCreator = true. -/
def setFirstCreator : List Player → List Player
  | [] => []
  | p :: t => { p with isCreator := true } :: t

/-- Number of players currently flagged as creator (host). -/
def countHost (ps : List Player) : Nat :=
  (ps.filter (fun p => p.isCreator)).length

/-- The fresh gameState a createRoom call installs. -/
def initialGameState : GameState :=
  { status := .lobby, roundNumber := 0, usedQuestionKeys := [], answers := [],
    imposterId := none, currentQuestion := none }

/-- socket.on of createRoom: a new room with the creator as only player. -/
def createRoom (roomCode creatorId playerName : String) (settings : Settings) : Room :=
  { roomCode := roomCode, settings := settings,
    players := [{ id := creatorId, name := playerName, isCreator := true,
                  hasAnswered := false }],
    gameState := initialGameState }

/-- socket.on of joinRoom for an existing room. -/
def joinRoom (room : Room) (sid playerName : String) : Room × List Emit :=
  if room.gameState.status ≠ .lobby then
    (room, [Emit.toRequester (Msg.joinError "Game already in progress.")])
  else if room.players.any (fun p => p.id == sid) then
    (room, [Emit.toRequester Msg.joinSuccess, Emit.toRoom Msg.updateRoomState])
  else
    ({ room with players := room.players ++
        [{ id := sid, name := playerName, isCreator := false, hasAnswered := false }] },
     [Emit.toRequester Msg.joinSuccess, Emit.toRoom Msg.updateRoomState])

/-- socket.on of startGame.  allQuestionKeys and questionsData are the loaded
corpus; randQ and randP model the two Math.random draws. -/
def startGame (room : Room) (requesterId : String) (allQuestionKeys : List String)
    (questionsData : List (String × Question)) (randQ randP : Nat) :
    Room × List Emit :=
  let requestingPlayer := room.players.find? (fun p => p.id == requesterId)
  if requestingPlayer.isNone ∨ ¬ (requestingPlayer.map Player.isCreator).getD false ∨
      room.gameState.status ≠ .lobby ∨ room.players.length < 2 then
    (room, [Emit.toRequester (Msg.lobbyError "Cannot start game.")])
  else if allQuestionKeys.length = 0 ∨ room.settings.totalQuestions ≤ 0 then
    (room, [Emit.toRequester (Msg.lobbyError "Error with game questions configuration.")])
  else
    let settings' :=
      if room.settings.totalQuestions > allQuestionKeys.length then
        { room.settings with totalQuestions := allQuestionKeys.length }
      else room.settings
    let gs1 : GameState :=
      { room.gameState with
        status := .playing
        roundNumber := 1
        usedQuestionKeys := []
        answers := [] }
    let players1 := resetAnswered room.players
    let availableKeys :=
      allQuestionKeys.filter (fun key => ¬ gs1.usedQuestionKeys.contains key)
    if availableKeys.length = 0 then
      ({ room with
          settings := settings'
          players := players1
          gameState := { gs1 with status := .lobby } },
       [Emit.toRequester (Msg.lobbyError "Error finding a question.")])
    else
      let randomKey := availableKeys.getD (randQ % availableKeys.length) ""
      let used' := gs1.usedQuestionKeys ++ [randomKey]
      match questionsData.lookup randomKey with
      | none =>
        ({ room with
            settings := settings'
            players := players1
            gameState := { gs1 with usedQuestionKeys := used', status := .lobby } },
         [Emit.toRequester (Msg.lobbyError "Internal error selecting question.")])
      | some q =>
        let playerIds := players1.map Player.id
        let imposterId := playerIds.getD (randP % playerIds.length) ""
        let room' : Room :=
          { room with
            settings := settings'
            players := players1
            gameState :=
              { gs1 with
                usedQuestionKeys := used'
                currentQuestion := some q
                imposterId := some imposterId } }
        (room',
         Emit.toRoom Msg.gameStarted ::
           players1.map (fun p =>
             Emit.toPlayer p.id
               (Msg.newRound 1 (if p.id == imposterId then q.fake else q.real)
                 (p.id == imposterId))))

/-- socket.on of submitAnswer.  Validation failures return silently. -/
def submitAnswer (room : Room) (playerId : String) (answerText : Option String) :
    Room × List Emit :=
  match room.players.find? (fun p => p.id == playerId) with
  | none => (room, [])
  | some _ =>
    if room.gameState.status ≠ .playing then (room, [])
    else if truthy (room.gameState.answers.lookup playerId) then (room, [])
    else
      let sanitizedAnswer := sanitize answerText
      let answers' := insertA room.gameState.answers playerId sanitizedAnswer
      let players' := setAnswered room.players playerId
      let room1 : Room :=
        { room with
          players := players'
          gameState := { room.gameState with answers := answers' } }
      if answers'.length ≥ room1.players.length then
        let realQuestion :=
          match room1.gameState.currentQuestion with
          | some q => if q.real == "" then "Error: Question not found" else q.real
          | none => "Error: Question not found"
        ({ room1 with gameState := { room1.gameState with status := .guessing } },
         [Emit.toRoom Msg.updateRoomState,
          Emit.toRoom (Msg.allAnswersIn answers' realQuestion)])
      else
        (room1, [Emit.toRoom Msg.updateRoomState])

/-- socket.on of skipGuessTimer (host-only, guessing phase only). -/
def skipGuessTimer (room : Room) (playerId : String) : Room × List Emit :=
  match room.players.find? (fun p => p.id == playerId) with
  | none => (room, [])
  | some player =>
    if ¬ player.isCreator ∨ room.gameState.status ≠ .guessing then (room, [])
    else
      let room1 : Room :=
        { room with gameState := { room.gameState with status := .revealing } }
      match room1.gameState.imposterId, room1.gameState.currentQuestion with
      | some impId, some cq =>
        if impId == "" then (room1, [])
        else
          let imposterName :=
            match room1.players.find? (fun p => p.id == impId) with
            | some imp => imp.name
            | none => "Unknown Name"
          (room1, [Emit.toRoom (Msg.reveal impId imposterName cq.fake)])
      | _, _ => (room1, [])

/-- socket.on of nextQuestion (host-only, revealing phase only). -/
def nextQuestion (room : Room) (playerId : String) (allQuestionKeys : List String)
    (questionsData : List (String × Question)) (randQ randP : Nat) :
    Room × List Emit :=
  match room.players.find? (fun p => p.id == playerId) with
  | none => (room, [])
  | some player =>
    if ¬ player.isCreator then (room, [])
    else if room.gameState.status ≠ .revealing then (room, [])
    else
      let currentRoundNumber := room.gameState.roundNumber
      let totalQuestions := room.settings.totalQuestions
      if currentRoundNumber ≥ totalQuestions then
        ({ room with gameState := { room.gameState with status := .gameover } },
         [Emit.toRoom (Msg.gameOver
            ("Game finished after " ++ toString totalQuestions ++ " rounds."))])
      else
        let nextRoundNumber := currentRoundNumber + 1
        let gs1 : GameState :=
          { room.gameState with
            status := .playing
            roundNumber := nextRoundNumber
            answers := []
            imposterId := none
            currentQuestion := none }
        let players1 := resetAnswered room.players
        let availableKeys :=
          allQuestionKeys.filter (fun key => ¬ gs1.usedQuestionKeys.contains key)
        if availableKeys.length = 0 then
          ({ room with
              players := players1
              gameState := { gs1 with status := .gameover } },
           [Emit.toRoom (Msg.gameOver
              ("Game ended early - ran out of unique questions after round "
                ++ toString currentRoundNumber ++ "."))])
        else
          let randomKey := availableKeys.getD (randQ % availableKeys.length) ""
          let used' := gs1.usedQuestionKeys ++ [randomKey]
          match questionsData.lookup randomKey with
          | none =>
            ({ room with
                players := players1
                gameState := { gs1 with usedQuestionKeys := used', status := .revealing } },
             [Emit.toRequester (Msg.gameError "Internal error selecting question.")])
          | some q =>
            let playerIds := players1.map Player.id
            let imposterId := playerIds.getD (randP % playerIds.length) ""
            let room' : Room :=
              { room with
                players := players1
                gameState :=
                  { gs1 with
                    usedQuestionKeys := used'
                    currentQuestion := some q
                    imposterId := some imposterId } }
            (room',
             players1.map (fun p =>
               Emit.toPlayer p.id
                 (Msg.newRound nextRoundNumber
                   (if p.id == imposterId then q.fake else q.real)
                   (p.id == imposterId))))

/-- socket.on of disconnect, restricted to one room: remove the player,
delete the room when empty (result none), else reassign the creator flag if
the departed player held it and broadcast the updated roster. -/
def disconnect (room : Room) (sid : String) : Option Room × List Emit :=
  match removeFirst room.players sid with
  | none => (some room, [])
  | some (departed, rest) =>
    if rest.length = 0 then (none, [])
    else
      let players' := if departed.isCreator then setFirstCreator rest else rest
      (some { room with players := players' }, [Emit.toRoom Msg.updateRoomState])

/-- One state-mutating operation on a live room (the room stays live). -/
inductive Step : Room → Room → Prop
  | join (sid playerName : String) (es : List Emit) {r r' : Room} :
      joinRoom r sid playerName = (r', es) → Step r r'
  | start (requesterId : String) (keys : List String)
      (corpus : List (String × Question)) (randQ randP : Nat) (es : List Emit)
      {r r' : Room} :
      startGame r requesterId keys corpus randQ randP = (r', es) → Step r r'
  | submit (playerId : String) (answerText : Option String) (es : List Emit)
      {r r' : Room} :
      submitAnswer r playerId answerText = (r', es) → Step r r'
  | skip (playerId : String) (es : List Emit) {r r' : Room} :
      skipGuessTimer r playerId = (r', es) → Step r r'
  | next (playerId : String) (keys : List String)
      (corpus : List (String × Question)) (randQ randP : Nat) (es : List Emit)
      {r r' : Room} :
      nextQuestion r playerId keys corpus randQ randP = (r', es) → Step r r'
  | disc (sid : String) (es : List Emit) {r r' : Room} :
      disconnect r sid = (some r', es) → Step r r'

/-- Rooms reachable from a createRoom call through the server's operations. -/
inductive Reachable : Room → Prop
  | init (roomCode creatorId playerName : String) (settings : Settings) :
      Reachable (createRoom roomCode creatorId playerName settings)
  | step {r r' : Room} : Reachable r → Step r r' → Reachable r'

/-- Is an emitted message one of the server's error messages? -/
def isErrorMsg : Msg → Bool
  | .joinError _ => true
  | .lobbyError _ => true
  | .gameError _ => true
  | _ => false

/-- The message carried by an emission. -/
def emitMsg : Emit → Msg
  | .toRequester m => m
  | .toRoom m => m
  | .toPlayer _ m => m

/-- Sample settings used by the concrete scenarios below. -/
def stgS : Settings := { turnTimer := 30, guessTimer := 300, totalQuestions := 2 }

/-- Sample three-key corpus. -/
def corpusS : List (String × Question) :=
  [("k1", { real := "r1", fake := "f1" }),
   ("k2", { real := "r2", fake := "f2" }),
   ("k3", { real := "r3", fake := "f3" })]

/-- The key list of the sample corpus (Object.keys order). -/
def keysS : List String := ["k1", "k2", "k3"]

/-- A room in the answering phase with three players, where Alice and Bob
have already answered and Carol has not. -/
def roomC1 : Room :=
  { roomCode := "R1"
    settings := stgS
    players :=
      [{ id := "A", name := "Alice", isCreator := true, hasAnswered := true },
       { id := "B", name := "Bob", isCreator := false, hasAnswered := true },
       { id := "C", name := "Carol", isCreator := false, hasAnswered := false }]
    gameState :=
      { status := .playing
        roundNumber := 1
        usedQuestionKeys := ["k1"]
        answers := [("A", "apple"), ("B", "banana")]
        imposterId := some "B"
        currentQuestion := some { real := "r1", fake := "f1" } } }

/-- A room in the answering phase with three players, where only Carol has
answered so far. -/
def roomC2 : Room :=
  { roomCode := "R2"
    settings := stgS
    players :=
      [{ id := "A", name := "Alice", isCreator := true, hasAnswered := false },
       { id := "B", name := "Bob", isCreator := false, hasAnswered := false },
       { id := "C", name := "Carol", isCreator := false, hasAnswered := true }]
    gameState :=
      { status := .playing
        roundNumber := 1
        usedQuestionKeys := ["k1"]
        answers := [("C", "cherry")]
        imposterId := some "A"
        currentQuestion := some { real := "r1", fake := "f1" } } }

/-- A two-player room in the answering phase with no answers yet. -/
def roomC3 : Room :=
  { roomCode := "R3"
    settings := stgS
    players :=
      [{ id := "A", name := "Alice", isCreator := true, hasAnswered := false },
       { id := "B", name := "Bob", isCreator := false, hasAnswered := false }]
    gameState :=
      { status := .playing
        roundNumber := 1
        usedQuestionKeys := ["k1"]
        answers := []
        imposterId := some "B"
        currentQuestion := some { real := "r1", fake := "f1" } } }

/-- A two-player room obtained by creating a room and having Bob join. -/
def roomW4 : Room :=
  (joinRoom (createRoom "ROOM" "A" "Alice" ⟨30, 300, 2⟩) "B" "Bob").1

/-- A two-player room still in the lobby, for startGame scenarios. -/
def roomL : Room :=
  { roomCode := "RL"
    settings := stgS
    players :=
      [{ id := "A", name := "Alice", isCreator := true, hasAnswered := false },
       { id := "B", name := "Bob", isCreator := false, hasAnswered := false }]
    gameState := initialGameState }

/-- A lobby room whose host requests more rounds than the corpus holds. -/
def roomL5 : Room :=
  { roomL with settings := { turnTimer := 30, guessTimer := 300, totalQuestions := 5 } }

/-- A two-player room in the revealing phase after round 1 of 2. -/
def roomR7 : Room :=
  { roomCode := "R7"
    settings := stgS
    players :=
      [{ id := "A", name := "Alice", isCreator := true, hasAnswered := true },
       { id := "B", name := "Bob", isCreator := false, hasAnswered := true }]
    gameState :=
      { status := .revealing
        roundNumber := 1
        usedQuestionKeys := ["k1"]
        answers := [("A", "x"), ("B", "y")]
        imposterId := some "B"
        currentQuestion := some { real := "r1", fake := "f1" } } }

/-- A two-player room in the guessing phase whose imposter id Z refers to a
player who has already departed. -/
def roomG9 : Room :=
  { roomCode := "R9"
    settings := stgS
    players :=
      [{ id := "A", name := "Alice", isCreator := true, hasAnswered := true },
       { id := "B", name := "Bob", isCreator := false, hasAnswered := true }]
    gameState :=
      { status := .guessing
        roundNumber := 1
        usedQuestionKeys := ["k1"]
        answers := [("A", "x"), ("B", "y")]
        imposterId := some "Z"
        currentQuestion := some { real := "r1", fake := "f1" } } }

/-- roomR7 after its second (and final) round has been revealed. -/
def roomR7b : Room :=
  { roomR7 with gameState :=
      { roomR7.gameState with roundNumber := 2, usedQuestionKeys := ["k1", "k2"] } }

theorem countHost_resetAnswered (ps : List Player) :
    countHost (resetAnswered ps) = countHost ps := by
  induction ps with
  | nil => rfl
  | cons p t ih =>
    simp only [resetAnswered, List.map_cons, countHost, List.filter_cons] at *
    by_cases hp : p.isCreator <;> simp [hp, ih]

theorem resetAnswered_ne_nil {ps : List Player} (h : ps ≠ []) :
    resetAnswered ps ≠ [] := by
  cases ps with
  | nil => exact absurd rfl h
  | cons p t => simp [resetAnswered]

theorem countHost_setAnswered (ps : List Player) (pid : String) :
    countHost (setAnswered ps pid) = countHost ps := by
  induction ps with
  | nil => rfl
  | cons p t ih =>
    simp only [setAnswered]
    by_cases hid : p.id = pid
    · simp only [hid, if_pos rfl, countHost, List.filter_cons]
      by_cases hp : p.isCreator <;> simp [hp]
    · simp only [if_neg hid, countHost, List.filter_cons] at *
      by_cases hp : p.isCreator <;> simp [hp, ih]

theorem setAnswered_ne_nil {ps : List Player} (pid : String) (h : ps ≠ []) :
    setAnswered ps pid ≠ [] := by
  cases ps with
  | nil => exact absurd rfl h
  | cons p t =>
    simp only [setAnswered]
    by_cases hid : p.id = pid <;> simp [hid]

theorem removeFirst_countHost {ps : List Player} {sid : String}
    {d : Player} {rest : List Player}
    (h : removeFirst ps sid = some (d, rest)) :
    countHost ps = countHost rest + (if d.isCreator then 1 else 0) := by
  induction ps generalizing rest with
  | nil => simp [removeFirst] at h
  | cons p t ih =>
    simp only [removeFirst] at h
    by_cases hid : p.id = sid
    · rw [if_pos hid] at h
      cases h
      simp only [countHost, List.filter_cons]
      by_cases hp : d.isCreator <;> simp [hp, Nat.add_comm]
    · rw [if_neg hid] at h
      cases hrec : removeFirst t sid with
      | none => rw [hrec] at h; exact absurd h (by simp)
      | some pr =>
        obtain ⟨d0, rest0⟩ := pr
        rw [hrec] at h
        cases h
        have hrec2 := ih hrec
        simp only [countHost, List.filter_cons] at hrec2 ⊢
        by_cases hp : p.isCreator <;> simp [hp, hrec2] <;> omega

theorem countHost_setFirstCreator {rest : List Player} (hne : rest ≠ [])
    (h0 : countHost rest = 0) : countHost (setFirstCreator rest) = 1 := by
  cases rest with
  | nil => exact absurd rfl hne
  | cons p t =>
    simp only [countHost, setFirstCreator, List.filter_cons] at h0 ⊢
    by_cases hp : p.isCreator = true
    · simp [hp] at h0
    · simp only [Bool.not_eq_true] at hp
      simp [hp] at h0
      simpa using h0

theorem setFirstCreator_ne_nil {rest : List Player} (hne : rest ≠ []) :
    setFirstCreator rest ≠ [] := by
  cases rest with
  | nil => exact absurd rfl hne
  | cons p t => simp [setFirstCreator]

theorem step_preserves_host {r r' : Room} (h : Step r r')
    (hc : countHost r.players = 1) (hne : r.players ≠ []) :
    countHost r'.players = 1 ∧ r'.players ≠ [] := by
  cases h with
  | join sid playerName es hj =>
    simp only [joinRoom] at hj
    split at hj
    · cases hj; exact ⟨hc, hne⟩
    · split at hj
      · cases hj; exact ⟨hc, hne⟩
      · cases hj
        constructor
        · simp only [countHost, List.filter_append, List.length_append,
            List.filter_cons] at *
          simp [hc]
        · simp
  | start requesterId keys corpus randQ randP es hj =>
    simp only [startGame] at hj
    split at hj
    · cases hj; exact ⟨hc, hne⟩
    · split at hj
      · cases hj; exact ⟨hc, hne⟩
      · split at hj
        · cases hj
          exact ⟨by simpa [countHost_resetAnswered] using hc, resetAnswered_ne_nil hne⟩
        · split at hj
          · cases hj
            exact ⟨by simpa [countHost_resetAnswered] using hc, resetAnswered_ne_nil hne⟩
          · cases hj
            exact ⟨by simpa [countHost_resetAnswered] using hc, resetAnswered_ne_nil hne⟩
  | submit playerId answerText es hj =>
    simp only [submitAnswer] at hj
    split at hj
    · cases hj; exact ⟨hc, hne⟩
    · split at hj
      · cases hj; exact ⟨hc, hne⟩
      · split at hj
        · cases hj; exact ⟨hc, hne⟩
        · split at hj
          · cases hj
            exact ⟨by simpa [countHost_setAnswered] using hc, setAnswered_ne_nil _ hne⟩
          · cases hj
            exact ⟨by simpa [countHost_setAnswered] using hc, setAnswered_ne_nil _ hne⟩
  | skip playerId es hj =>
    simp only [skipGuessTimer] at hj
    split at hj
    · cases hj; exact ⟨hc, hne⟩
    · split at hj
      · cases hj; exact ⟨hc, hne⟩
      · split at hj
        · split at hj
          · cases hj; exact ⟨hc, hne⟩
          · cases hj; exact ⟨hc, hne⟩
        · cases hj; exact ⟨hc, hne⟩
  | next playerId keys corpus randQ randP es hj =>
    simp only [nextQuestion] at hj
    split at hj
    · cases hj; exact ⟨hc, hne⟩
    · split at hj
      · cases hj; exact ⟨hc, hne⟩
      · split at hj
        · cases hj; exact ⟨hc, hne⟩
        · split at hj
          · cases hj; exact ⟨hc, hne⟩
          · split at hj
            · cases hj
              exact ⟨by simpa [countHost_resetAnswered] using hc, resetAnswered_ne_nil hne⟩
            · split at hj
              · cases hj
                exact ⟨by simpa [countHost_resetAnswered] using hc, resetAnswered_ne_nil hne⟩
              · cases hj
                exact ⟨by simpa [countHost_resetAnswered] using hc, resetAnswered_ne_nil hne⟩
  | disc sid es hj =>
    simp only [disconnect] at hj
    split at hj
    · cases hj; exact ⟨hc, hne⟩
    · rename_i departed rest hrm
      split at hj
      · cases hj
      · rename_i hlen
        cases hj
        have hrest : rest ≠ [] := by
          intro hnil; exact hlen (by simp [hnil])
        have hcount := removeFirst_countHost hrm
        rw [hc] at hcount
        by_cases hcr : departed.isCreator
        · rw [if_pos hcr] at hcount
          have h0 : countHost rest = 0 := by omega
          rw [if_pos hcr]
          exact ⟨countHost_setFirstCreator hrest h0,
            setFirstCreator_ne_nil hrest⟩
        · rw [if_neg hcr] at hcount
          rw [if_neg hcr]
          refine ⟨?_, hrest⟩
          show countHost rest = 1
          omega

/-- Every reachable room has exactly one creator-flagged player and a
non-empty roster. -/
theorem reachable_host_inv {r : Room} (h : Reachable r) :
    countHost r.players = 1 ∧ r.players ≠ [] := by
  induction h with
  | init roomCode creatorId playerName settings =>
    exact ⟨rfl, by simp [createRoom]⟩
  | step hr hs ih => exact step_preserves_host hs ih.1 ih.2

/-- C4: in every reachable room with a non-empty roster, at most one
participant carries the creator (host) flag; and immediately after a
disconnect of the host that leaves a non-empty roster, exactly one remaining
participant carries it. -/
theorem host_flag_unique (r : Room) (h : Reachable r) :
    (r.players ≠ [] → countHost r.players ≤ 1) ∧
    (∀ sid r' es, disconnect r sid = (some r', es) →
      (∃ p ∈ r.players, p.id = sid ∧ p.isCreator) →
      r'.players ≠ [] → countHost r'.players = 1) := by
  refine ⟨fun _ => (reachable_host_inv h).1.le, fun sid r' es hd _ _ => ?_⟩
  exact (reachable_host_inv (Reachable.step h (Step.disc sid es hd))).1

/-- Concrete instantiation of host_flag_unique: Alice (the host) disconnects
from a two-player room and the survivor carries the flag. -/
theorem host_flag_unique_witness :
    countHost ((disconnect roomW4 "A").1.getD roomW4).players = 1 := by
  have hreach : Reachable roomW4 :=
    Reachable.step (Reachable.init "ROOM" "A" "Alice" ⟨30, 300, 2⟩)
      (Step.join "B" "Bob"
        (joinRoom (createRoom "ROOM" "A" "Alice" ⟨30, 300, 2⟩) "B" "Bob").2 rfl)
  exact (host_flag_unique roomW4 hreach).2 "A"
    ((disconnect roomW4 "A").1.getD roomW4) (disconnect roomW4 "A").2 rfl
    ⟨{ id := "A", name := "Alice", isCreator := true, hasAnswered := false },
      by decide, rfl, rfl⟩
    (by decide)

/-- C1: the claim fails on the code.  When Carol departs roomC1 (answering
phase, the two remaining players have both already answered), the disconnect
handler does not perform the all-answered transition a final submission would:
the room stays in the playing (answering) status with its two answers pending,
and only a roster update is broadcast — no allAnswersIn emission with the
answers and real prompt. -/
theorem disconnect_no_all_answered_transition :
    ((disconnect roomC1 "C").1.map (fun r => r.gameState.status)
        = some Status.playing) ∧
    ((disconnect roomC1 "C").1.map (fun r => r.players.length) = some 2) ∧
    ((disconnect roomC1 "C").1.map (fun r => r.gameState.answers.length)
        = some 2) ∧
    (disconnect roomC1 "C").2 = [Emit.toRoom Msg.updateRoomState] := by
  decide

/-- C2: the claim fails on the code.  When Carol, who has already answered,
departs roomC2, her entry survives in the current round's answers mapping even
though she is no longer in the roster: the disconnect handler removes the
player record but never touches gameState.answers. -/
theorem disconnect_keeps_departed_answer :
    ((disconnect roomC2 "C").1.map
        (fun r => r.players.any (fun p => p.id == "C")) = some false) ∧
    ((disconnect roomC2 "C").1.map
        (fun r => r.gameState.answers.lookup "C") = some (some "cherry")) := by
  decide

/-- C3: the claim fails on the code for a first submission that trims to the
empty string.  In roomC3 Alice first submits an answer consisting only of
spaces (sanitized to the empty string "") and then submits a second answer;
the duplicate check tests JS truthiness of the stored string, so the falsy
empty first answer does not block the second submission, which overwrites it
instead of being a no-op. -/
theorem second_submit_overwrites_empty_first :
    (submitAnswer roomC3 "A" (some "   ")).1.gameState.answers = [("A", "")] ∧
    (submitAnswer (submitAnswer roomC3 "A" (some "   ")).1 "A"
        (some "second answer")).1.gameState.answers
      = [("A", "second answer")] := by
  decide

/-- Looking up a key right after the JS-style assignment that stored it
returns the stored value. -/
theorem lookup_insertA (l : List (String × String)) (k v : String) :
    (insertA l k v).lookup k = some v := by
  induction l with
  | nil => simp [insertA, List.lookup]
  | cons kv t ih =>
    obtain ⟨k', v'⟩ := kv
    by_cases hk : k' = k
    · subst hk; simp [insertA, List.lookup]
    · have hkk : (k == k') = false := by simpa using Ne.symm hk
      simp [insertA, hk, List.lookup, ih, hkk]

/-- The sanitized answer never exceeds 150 characters. -/
theorem sanitize_length_le (t : Option String) : (sanitize t).length ≤ 150 := by
  simp only [sanitize, jsSubstring0, String.length]
  simp [List.length_take]

/-- C10: an accepted submitAnswer (player present, answering phase, no truthy
stored answer yet) stores exactly the whitespace-trimmed input truncated to at
most 150 characters; the truncation is silent: the stored string has length at
most 150 and no error message is emitted. -/
theorem submit_answer_sanitized
    (room : Room) (pid : String) (t : Option String)
    (hp : (room.players.find? (fun p => p.id == pid)).isSome)
    (hst : room.gameState.status = .playing)
    (hfresh : truthy (room.gameState.answers.lookup pid) = false) :
    (submitAnswer room pid t).1.gameState.answers.lookup pid
        = some (jsSubstring0 (jsTrim (t.getD "")) 150) ∧
    (((submitAnswer room pid t).1.gameState.answers.lookup pid).getD "").length
        ≤ 150 ∧
    ∀ e ∈ (submitAnswer room pid t).2, isErrorMsg (emitMsg e) = false := by
  obtain ⟨p, hfind⟩ := Option.isSome_iff_exists.mp hp
  have key : (submitAnswer room pid t).1.gameState.answers.lookup pid
      = some (sanitize t) := by
    simp only [submitAnswer, hfind, hst, hfresh]
    rw [if_neg (by simp), if_neg (by simp)]
    split <;> exact lookup_insertA _ _ _
  refine ⟨key, ?_, ?_⟩
  · rw [key]
    simpa using sanitize_length_le t
  · simp only [submitAnswer, hfind, hst, hfresh]
    rw [if_neg (by simp), if_neg (by simp)]
    split <;> simp [isErrorMsg, emitMsg]

/-- Concrete instantiation of submit_answer_sanitized: Bob submits a padded
answer in roomC3 and it is stored trimmed. -/
theorem submit_answer_sanitized_witness :
    (submitAnswer roomC3 "B" (some "  hi there  ")).1.gameState.answers.lookup "B"
        = some (jsSubstring0 (jsTrim "  hi there  ") 150) ∧
    (((submitAnswer roomC3 "B" (some "  hi there  ")).1.gameState.answers.lookup
        "B").getD "").length ≤ 150 ∧
    ∀ e ∈ (submitAnswer roomC3 "B" (some "  hi there  ")).2,
      isErrorMsg (emitMsg e) = false :=
  submit_answer_sanitized roomC3 "B" (some "  hi there  ") (by decide) rfl
    (by decide)

/-- C9: a skipGuessTimer by the host in the guessing phase still completes when
the round's imposter id no longer refers to a roster member: the room moves to
revealing and the reveal broadcast carries the fallback label Unknown Name in
place of the imposter's display name. -/
theorem skip_reveal_fallback_name
    (room : Room) (pid impId : String) (cq : Question)
    (hreq : ∃ p, room.players.find? (fun q => q.id == pid) = some p ∧
      p.isCreator = true)
    (hst : room.gameState.status = .guessing)
    (himp : room.gameState.imposterId = some impId)
    (hne : impId ≠ "")
    (hcq : room.gameState.currentQuestion = some cq)
    (habs : room.players.find? (fun p => p.id == impId) = none) :
    skipGuessTimer room pid =
      ({ room with gameState := { room.gameState with status := .revealing } },
       [Emit.toRoom (Msg.reveal impId "Unknown Name" cq.fake)]) := by
  obtain ⟨p, hfind, hcr⟩ := hreq
  have hbe : (impId == "") = false := by simpa using hne
  simp only [skipGuessTimer, hfind]
  rw [if_neg (by simp [hcr, hst])]
  simp only [himp, hcq, hbe, habs]
  simp

/-- Concrete instantiation of skip_reveal_fallback_name: the imposter Z has
departed roomG9 and the reveal still goes out with the fallback label. -/
theorem skip_reveal_fallback_name_witness :
    skipGuessTimer roomG9 "A" =
      ({ roomG9 with gameState := { roomG9.gameState with status := .revealing } },
       [Emit.toRoom (Msg.reveal "Z" "Unknown Name" "f1")]) :=
  skip_reveal_fallback_name roomG9 "A" "Z" { real := "r1", fake := "f1" }
    ⟨{ id := "A", name := "Alice", isCreator := true, hasAnswered := true },
      rfl, rfl⟩
    rfl rfl (by decide) rfl rfl

/-- C6: a startGame request in the lobby from a non-host requester, or with
fewer than 2 players, or with an empty prompt corpus, is rejected: the state
is returned unchanged, the phase stays lobby, and the only emission is a
lobbyError unicast to the requester. -/
theorem startGame_rejects_invalid
    (room : Room) (pid : String) (keys : List String)
    (corpus : List (String × Question)) (rq rp : Nat)
    (hst : room.gameState.status = .lobby)
    (hfail : (∀ p, room.players.find? (fun q => q.id == pid) = some p →
                p.isCreator = false) ∨
             room.players.length < 2 ∨ keys = []) :
    ∃ m, startGame room pid keys corpus rq rp
        = (room, [Emit.toRequester (Msg.lobbyError m)]) ∧
      (startGame room pid keys corpus rq rp).1.gameState.status = .lobby := by
  have main : ∃ m, startGame room pid keys corpus rq rp
      = (room, [Emit.toRequester (Msg.lobbyError m)]) := by
    simp only [startGame]
    rcases hfail with hf | hf | hf
    · cases hsome : room.players.find? (fun q => q.id == pid) with
      | none =>
        refine ⟨"Cannot start game.", ?_⟩
        rw [if_pos]
        exact Or.inl (by simp [hsome])
      | some p =>
        refine ⟨"Cannot start game.", ?_⟩
        rw [if_pos]
        exact Or.inr (Or.inl (by simp [hsome, hf p hsome]))
    · exact ⟨"Cannot start game.", by rw [if_pos (Or.inr (Or.inr (Or.inr hf)))]⟩
    · subst hf
      by_cases hc1 : (room.players.find? (fun q => q.id == pid)).isNone ∨
          ¬ ((room.players.find? (fun q => q.id == pid)).map
              Player.isCreator).getD false ∨
          room.gameState.status ≠ .lobby ∨ room.players.length < 2
      · exact ⟨"Cannot start game.", by rw [if_pos hc1]⟩
      · refine ⟨"Error with game questions configuration.", ?_⟩
        rw [if_neg hc1, if_pos (Or.inl (List.length_nil))]
  obtain ⟨m, hm⟩ := main
  exact ⟨m, hm, by rw [hm]; exact hst⟩

/-- Concrete instantiation of startGame_rejects_invalid: starting with an
empty corpus is rejected and roomL stays in the lobby untouched. -/
theorem startGame_rejects_invalid_witness :
    ∃ m, startGame roomL "A" [] corpusS 0 0
        = (roomL, [Emit.toRequester (Msg.lobbyError m)]) ∧
      (startGame roomL "A" [] corpusS 0 0).1.gameState.status = .lobby :=
  startGame_rejects_invalid roomL "A" [] corpusS 0 0 rfl (Or.inr (Or.inr rfl))

/-- getD at an in-range index returns an element of the list. -/
theorem getD_mem (l : List String) (n : Nat) (d : String) (h : n < l.length) :
    l.getD n d ∈ l := by
  rw [List.getD_eq_getElem l d h]
  exact List.getElem_mem h

/-- Shape of every successful startGame: one fresh key is drawn and marked
used, a question pair is installed, an imposter from the roster is drawn,
round-1 state is set up and the per-player round payloads are emitted. -/
theorem startGame_success
    {room : Room} {pid : String} {keys : List String}
    {corpus : List (String × Question)} {rq rp : Nat} {room' : Room}
    {es : List Emit}
    (hst : room.gameState.status = .lobby)
    (h : startGame room pid keys corpus rq rp = (room', es))
    (hs : room'.gameState.status = .playing) :
    ∃ key q impId,
      key ∈ keys ∧ corpus.lookup key = some q ∧
      room'.gameState.usedQuestionKeys = [key] ∧
      room'.gameState.currentQuestion = some q ∧
      room'.gameState.imposterId = some impId ∧
      impId ∈ room'.players.map Player.id ∧
      room'.gameState.roundNumber = 1 ∧
      room'.gameState.answers = [] ∧
      room'.players = resetAnswered room.players ∧
      room'.settings =
        (if room.settings.totalQuestions > keys.length then
          { room.settings with totalQuestions := keys.length }
         else room.settings) ∧
      es = Emit.toRoom Msg.gameStarted ::
        room'.players.map (fun p =>
          Emit.toPlayer p.id (Msg.newRound 1
            (if p.id == impId then q.fake else q.real) (p.id == impId))) := by
  simp only [startGame] at h
  split at h
  · cases h
    rw [hst] at hs
    exact absurd hs (by decide)
  · rename_i hc1
    split at h
    · cases h
      rw [hst] at hs
      exact absurd hs (by decide)
    · split at h
      · cases h
        simp at hs
      · rename_i hlen0
        split at h
        · cases h
          simp at hs
        · rename_i q heq
          cases h
          push_neg at hc1
          have hpl2 := hc1.2.2.2
          refine ⟨_, q, _, ?_, heq, rfl, rfl, rfl, ?_, rfl, rfl, rfl, rfl, ?_⟩
          · have hpos : 0 < (List.filter
                (fun key => decide (¬ (List.contains ([] : List String) key = true)))
                keys).length := Nat.pos_of_ne_zero hlen0
            exact (List.mem_filter.mp (getD_mem _ _ "" (Nat.mod_lt rq hpos))).1
          · have hplen : 0 < ((resetAnswered room.players).map Player.id).length := by
              simp [resetAnswered]
              omega
            exact getD_mem _ _ "" (Nat.mod_lt rp hplen)
          · rfl

/-- Shape of every successful nextQuestion round setup: a fresh unused key is
appended, per-round fields are reset and redrawn, and the per-player round
payloads are emitted. -/
theorem nextQuestion_success
    {room : Room} {pid : String} {keys : List String}
    {corpus : List (String × Question)} {rq rp : Nat} {room' : Room}
    {es : List Emit}
    (hst : room.gameState.status = .revealing)
    (h : nextQuestion room pid keys corpus rq rp = (room', es))
    (hs : room'.gameState.status = .playing) :
    ∃ key q impId,
      key ∈ keys ∧ key ∉ room.gameState.usedQuestionKeys ∧
      corpus.lookup key = some q ∧
      room'.gameState.usedQuestionKeys
          = room.gameState.usedQuestionKeys ++ [key] ∧
      room'.gameState.currentQuestion = some q ∧
      room'.gameState.imposterId = some impId ∧
      impId ∈ room'.players.map Player.id ∧
      room'.gameState.roundNumber = room.gameState.roundNumber + 1 ∧
      room'.gameState.answers = [] ∧
      room'.players = resetAnswered room.players ∧
      room'.settings = room.settings ∧
      room.gameState.roundNumber < room.settings.totalQuestions ∧
      es = room'.players.map (fun p =>
        Emit.toPlayer p.id (Msg.newRound (room.gameState.roundNumber + 1)
          (if p.id == impId then q.fake else q.real) (p.id == impId))) := by
  simp only [nextQuestion] at h
  split at h
  · cases h
    rw [hst] at hs
    exact absurd hs (by decide)
  · rename_i player hfind
    split at h
    · cases h
      rw [hst] at hs
      exact absurd hs (by decide)
    · split at h
      · cases h
        rw [hst] at hs
        exact absurd hs (by decide)
      · split at h
        · cases h
          simp at hs
        · rename_i hge
          split at h
          · cases h
            simp at hs
          · rename_i hlen0
            split at h
            · cases h
              simp at hs
            · rename_i q heq
              cases h
              have hmem := getD_mem _ _ "" (Nat.mod_lt rq (Nat.pos_of_ne_zero hlen0))
              have hplen : 0 < ((resetAnswered room.players).map Player.id).length := by
                have := List.mem_of_find?_eq_some hfind
                simp [resetAnswered]
                exact List.length_pos.mpr (List.ne_nil_of_mem this)
              refine ⟨_, q, _, ?_, ?_, heq, rfl, rfl, rfl, ?_, rfl, rfl, rfl, rfl,
                ?_, rfl⟩
              · exact (List.mem_filter.mp hmem).1
              · simpa using (List.mem_filter.mp hmem).2
              · exact getD_mem _ _ "" (Nat.mod_lt rp hplen)
              · omega

/-- C5: every successful round setup (game start or round advance) grows the
used-prompt key set by exactly one, keeps it duplicate-free, keeps its size
within the corpus size, and draws only corpus keys — so no prompt id is
selected twice within one game. -/
theorem used_prompts_growth
    (room : Room) (pid : String) (keys : List String)
    (corpus : List (String × Question)) (rq rp : Nat)
    (hkeys : keys.Nodup)
    (hnd : room.gameState.usedQuestionKeys.Nodup)
    (hsub : ∀ k ∈ room.gameState.usedQuestionKeys, k ∈ keys) :
    (∀ room' es, room.gameState.status = .lobby →
      startGame room pid keys corpus rq rp = (room', es) →
      room'.gameState.status = .playing →
      room'.gameState.usedQuestionKeys.length = 1 ∧
      room'.gameState.usedQuestionKeys.Nodup ∧
      room'.gameState.usedQuestionKeys.length ≤ keys.length ∧
      ∀ k ∈ room'.gameState.usedQuestionKeys, k ∈ keys) ∧
    (∀ room' es, room.gameState.status = .revealing →
      nextQuestion room pid keys corpus rq rp = (room', es) →
      room'.gameState.status = .playing →
      room'.gameState.usedQuestionKeys.length
          = room.gameState.usedQuestionKeys.length + 1 ∧
      room'.gameState.usedQuestionKeys.Nodup ∧
      room'.gameState.usedQuestionKeys.length ≤ keys.length ∧
      ∀ k ∈ room'.gameState.usedQuestionKeys, k ∈ keys) := by
  constructor
  · intro room' es hst h hs
    obtain ⟨key, q, impId, hk, _, hused, _, _, _, _, _, _, _, _⟩ :=
      startGame_success hst h hs
    rw [hused]
    have hpos : 0 < keys.length := List.length_pos.mpr (List.ne_nil_of_mem hk)
    refine ⟨rfl, List.nodup_singleton key, by simpa using hpos, ?_⟩
    intro k hkmem
    simp at hkmem
    subst hkmem
    exact hk
  · intro room' es hst h hs
    obtain ⟨key, q, impId, hk, hknot, _, hused, _, _, _, _, _, _, _, _, _⟩ :=
      nextQuestion_success hst h hs
    rw [hused]
    have hsub' : ∀ k ∈ room.gameState.usedQuestionKeys ++ [key], k ∈ keys := by
      intro k hkmem
      rcases List.mem_append.mp hkmem with hk2 | hk2
      · exact hsub k hk2
      · simp at hk2
        subst hk2
        exact hk
    have hnd' : (room.gameState.usedQuestionKeys ++ [key]).Nodup := by
      rw [List.nodup_append]
      refine ⟨hnd, List.nodup_singleton key, ?_⟩
      intro a ha hb
      simp at hb
      subst hb
      exact hknot ha
    refine ⟨by simp, hnd', ?_, hsub'⟩
    exact (List.subperm_of_subset hnd' hsub').length_le

/-- C8: when startGame succeeds, a requested totalQuestions larger than the
corpus is clamped to the corpus size, and is otherwise left unchanged. -/
theorem totalRounds_clamped
    (room : Room) (pid : String) (keys : List String)
    (corpus : List (String × Question)) (rq rp : Nat) (room' : Room)
    (es : List Emit)
    (hst : room.gameState.status = .lobby)
    (h : startGame room pid keys corpus rq rp = (room', es))
    (hs : room'.gameState.status = .playing) :
    (room.settings.totalQuestions > keys.length →
      room'.settings.totalQuestions = keys.length) ∧
    (room.settings.totalQuestions ≤ keys.length →
      room'.settings.totalQuestions = room.settings.totalQuestions) := by
  obtain ⟨key, q, impId, _, _, _, _, _, _, _, _, _, hset, _⟩ :=
    startGame_success hst h hs
  constructor
  · intro hgt
    rw [hset, if_pos hgt]
  · intro hle
    rw [hset, if_neg (by omega)]


/-- C7: a host advance request in the revealing phase ends the game with a
gameOver broadcast when roundNumber equals totalQuestions; otherwise it
increments roundNumber, resets the per-round fields (answers, imposter,
prompt, per-participant hasAnswered), draws a fresh unused prompt and a new
imposter from the roster, re-enters the answering (playing) phase and emits
the per-player round payloads instead of gameOver. -/
theorem advance_round_behavior
    (room : Room) (pid : String) (keys : List String)
    (corpus : List (String × Question)) (rq rp : Nat)
    (hst : room.gameState.status = .revealing)
    (hreq : ∃ p, room.players.find? (fun q => q.id == pid) = some p ∧
      p.isCreator = true)
    (hkeys : keys.Nodup)
    (hlen : room.gameState.usedQuestionKeys.length = room.gameState.roundNumber)
    (htot : room.settings.totalQuestions ≤ keys.length)
    (hcorp : ∀ k ∈ keys, (corpus.lookup k).isSome) :
    (room.gameState.roundNumber = room.settings.totalQuestions →
      nextQuestion room pid keys corpus rq rp =
        ({ room with gameState := { room.gameState with status := .gameover } },
         [Emit.toRoom (Msg.gameOver ("Game finished after "
            ++ toString room.settings.totalQuestions ++ " rounds."))])) ∧
    (room.gameState.roundNumber < room.settings.totalQuestions →
      ∃ key q impId,
        key ∈ keys ∧ key ∉ room.gameState.usedQuestionKeys ∧
        corpus.lookup key = some q ∧
        (nextQuestion room pid keys corpus rq rp).1.gameState.status
            = .playing ∧
        (nextQuestion room pid keys corpus rq rp).1.gameState.roundNumber
            = room.gameState.roundNumber + 1 ∧
        (nextQuestion room pid keys corpus rq rp).1.gameState.answers = [] ∧
        (nextQuestion room pid keys corpus rq rp).1.gameState.usedQuestionKeys
            = room.gameState.usedQuestionKeys ++ [key] ∧
        (nextQuestion room pid keys corpus rq rp).1.gameState.currentQuestion
            = some q ∧
        (nextQuestion room pid keys corpus rq rp).1.gameState.imposterId
            = some impId ∧
        impId ∈ (nextQuestion room pid keys corpus rq rp).1.players.map
            Player.id ∧
        (∀ p ∈ (nextQuestion room pid keys corpus rq rp).1.players,
            p.hasAnswered = false) ∧
        (nextQuestion room pid keys corpus rq rp).2
            = (nextQuestion room pid keys corpus rq rp).1.players.map (fun p =>
          Emit.toPlayer p.id (Msg.newRound (room.gameState.roundNumber + 1)
            (if p.id == impId then q.fake else q.real) (p.id == impId)))) := by
  obtain ⟨player0, hfind, hcr⟩ := hreq
  constructor
  · intro heqr
    simp only [nextQuestion, hfind]
    rw [if_neg (show ¬ ¬ player0.isCreator = true by simp [hcr]),
      if_neg (show ¬ room.gameState.status ≠ Status.revealing by simp [hst]),
      if_pos (show room.gameState.roundNumber ≥ room.settings.totalQuestions
        by omega)]
  · intro hlt
    have hlenle : ¬ ((keys.filter (fun key =>
        ¬ room.gameState.usedQuestionKeys.contains key)).length = 0) := by
      intro h0
      have hall := List.filter_eq_nil_iff.mp (List.length_eq_zero.mp h0)
      have hsubk : keys ⊆ room.gameState.usedQuestionKeys := by
        intro a ha
        have := hall a ha
        simpa using this
      have hle2 := (List.subperm_of_subset hkeys hsubk).length_le
      omega
    have hkmem := getD_mem
      (keys.filter (fun key => ¬ room.gameState.usedQuestionKeys.contains key))
      (rq % (keys.filter (fun key =>
        ¬ room.gameState.usedQuestionKeys.contains key)).length) ""
      (Nat.mod_lt rq (Nat.pos_of_ne_zero hlenle))
    have hkeys2 := (List.mem_filter.mp hkmem).1
    have hsome := hcorp _ hkeys2
    have hsucc : (nextQuestion room pid keys corpus rq rp).1.gameState.status
        = .playing := by
      simp only [nextQuestion, hfind]
      rw [if_neg (show ¬ ¬ player0.isCreator = true by simp [hcr]),
        if_neg (show ¬ room.gameState.status ≠ Status.revealing by simp [hst]),
        if_neg (show ¬ room.gameState.roundNumber ≥ room.settings.totalQuestions
          by omega),
        if_neg hlenle]
      split
      · rename_i hnone
        rw [hnone] at hsome
        simp at hsome
      · rfl
    obtain ⟨key, q, impId, hk, hknot, hlk, hused, hcq, himp, himpm, hrn, hans,
        hpl, hset2, hlt2, hes⟩ := nextQuestion_success hst Prod.mk.eta.symm hsucc
    refine ⟨key, q, impId, hk, hknot, hlk, hsucc, hrn, hans, hused, hcq, himp,
      himpm, ?_, ?_⟩
    · intro p hp
      rw [hpl] at hp
      simp [resetAnswered] at hp
      obtain ⟨a, _, rfl⟩ := hp
      rfl
    · rw [hes, hpl]

/-- Concrete instantiation of used_prompts_growth: round 1 starts in roomL. -/
theorem used_prompts_growth_witness :
    (startGame roomL "A" keysS corpusS 0 1).1.gameState.usedQuestionKeys.length
        = 1 ∧
    (startGame roomL "A" keysS corpusS 0 1).1.gameState.usedQuestionKeys.Nodup ∧
    (startGame roomL "A" keysS corpusS 0 1).1.gameState.usedQuestionKeys.length
        ≤ keysS.length ∧
    ∀ k ∈ (startGame roomL "A" keysS corpusS 0 1).1.gameState.usedQuestionKeys,
      k ∈ keysS :=
  (used_prompts_growth roomL "A" keysS corpusS 0 1 (by decide) (by decide)
      (by decide)).1
    (startGame roomL "A" keysS corpusS 0 1).1
    (startGame roomL "A" keysS corpusS 0 1).2
    rfl Prod.mk.eta.symm (by decide)

/-- Concrete instantiation of totalRounds_clamped: 5 requested rounds against
a 3-prompt corpus are clamped to 3. -/
theorem totalRounds_clamped_witness :
    (startGame roomL5 "A" keysS corpusS 0 1).1.settings.totalQuestions = 3 :=
  (totalRounds_clamped roomL5 "A" keysS corpusS 0 1
      (startGame roomL5 "A" keysS corpusS 0 1).1
      (startGame roomL5 "A" keysS corpusS 0 1).2
      rfl Prod.mk.eta.symm (by decide)).1 (by decide)

/-- Concrete instantiation of advance_round_behavior: advancing after the
reveal of round 2 of 2 broadcasts gameOver. -/
theorem advance_round_behavior_witness :
    nextQuestion roomR7b "A" keysS corpusS 0 1 =
      ({ roomR7b with gameState :=
          { roomR7b.gameState with status := .gameover } },
       [Emit.toRoom (Msg.gameOver "Game finished after 2 rounds.")]) :=
  (advance_round_behavior roomR7b "A" keysS corpusS 0 1 rfl
      ⟨{ id := "A", name := "Alice", isCreator := true, hasAnswered := true },
        rfl, rfl⟩
      (by decide) rfl (by decide) (by decide)).1 rfl


end WhoIsFake
